import Mathlib

/-!
Verification development for the document-compliance repository
(`src/compliance/compliance_agent.py` and `src/compliance/rule_generator.py`).

The Python code is shallowly embedded: JSON-ish scalar values become the
`Value` inductive, Python `Decimal` arithmetic becomes exact `Rat`
arithmetic (`Decimal` strings are parsed exactly), dicts with a known key
set become structures with `Option` fields for optional keys, and the two
calls into the Python standard library whose behaviour the repository does
not define (`re.match` and `datetime.fromisoformat`) are threaded through
an explicit `PyExt` record of oracles.  Exceptions are modelled with
`Option`: a `Option.none` result of a conversion stands for the exception
the corresponding Python call raises, and each `try/except` of the source
is rendered as the match on that `Option` in the place the handler sits.
-/

/-- A Python scalar value as it occurs in document data and rule
parameters: a string, an int, a float (the canonical JSON-number form of
extracted amounts), `None`, or an opaque non-scalar (the nested dicts
the code stores but never successfully coerces).  A float — an IEEE-754
double — is carried as its exact rational value `q` together with its
shortest `repr` string `s` (what Python's `str()` prints; `float(s)`
recovers the double exactly): comparisons against `Decimal` use the
exact value, while `Decimal(str(x))` parses the repr.  Binary64 rounding
itself is not modelled — a `float` is whatever double the extraction
produced.  `obj` models the empty-dict defaults the code inserts
(`vendor_info.get('address', {})`). -/
inductive Value where
  | str (s : String)
  | int (n : Int)
  | float (q : Rat) (s : String)
  | pynone
  | obj
deriving DecidableEq, Repr

/-- Python `str()` of a scalar: strings unchanged, ints in decimal,
floats by their shortest repr, `None` prints "None", and the opaque dict
prints as the empty dict. -/
def pyStr : Value → String
  | Value.str s => s
  | Value.int n => toString n
  | Value.float _ s => s
  | Value.pynone => "None"
  | Value.obj => "\x7b\x7d"

/-- Numeric value of a list of decimal digit characters. -/
def digitsVal (cs : List Char) : Nat :=
  cs.foldl (fun a c => a * 10 + (c.toNat - 48)) 0

/-- All characters are decimal digits and there is at least one. -/
def allDigits1 (cs : List Char) : Bool :=
  !cs.isEmpty && cs.all Char.isDigit

/-- Strip leading and trailing whitespace from a character list
(Python's `Decimal` and `int` both accept surrounding whitespace). -/
def stripWs (cs : List Char) : List Char :=
  ((cs.dropWhile Char.isWhitespace).reverse.dropWhile Char.isWhitespace).reverse

/-- Python `s.lower()` (ASCII case folding, all the data exercises). -/
def pyLower (s : String) : String :=
  String.mk (s.toList.map Char.toLower)

/-- Python `s.strip()`: whitespace removed from both ends. -/
def pyStrip (s : String) : String :=
  String.mk (stripWs s.toList)

/-- Python `s.replace(',', '')`: every comma removed. -/
def commaStrip (s : String) : String :=
  String.mk (s.toList.filter (fun c => !(c == ',')))

/-- Python `s.startswith(p)` on character lists. -/
def startsWithChars : List Char → List Char → Bool
  | [], _ => true
  | _ :: _, [] => false
  | p :: ps, c :: cs => p == c && startsWithChars ps cs

/-- Python `s.startswith(p)`. -/
def strStartsWith (s p : String) : Bool :=
  startsWithChars p.toList s.toList

/-- Helper for `splitDash`: accumulate the current piece (reversed). -/
def splitDashAux : List Char → List Char → List String
  | [], acc => [String.mk acc.reverse]
  | '-' :: rest, acc => String.mk acc.reverse :: splitDashAux rest []
  | c :: rest, acc => splitDashAux rest (c :: acc)

/-- Python `s.split('-')`: pieces between dashes, empties preserved. -/
def splitDash (s : String) : List String :=
  splitDashAux s.toList []

/-- Python string falsiness: `not s` is true exactly for the empty string. -/
def strIsEmpty (s : String) : Bool :=
  s.toList.isEmpty

/-- Parse the exponent tail of a `Decimal` literal: empty, or `e`/`E`
followed by an optionally signed digit run. -/
def parseExp? (cs : List Char) : Option Int :=
  match cs with
  | [] => some 0
  | e :: rest =>
    if e = 'e' || e = 'E' then
      match rest with
      | '+' :: ds => if allDigits1 ds then some (Int.ofNat (digitsVal ds)) else Option.none
      | '-' :: ds => if allDigits1 ds then some (-(Int.ofNat (digitsVal ds))) else Option.none
      | ds => if allDigits1 ds then some (Int.ofNat (digitsVal ds)) else Option.none
    else Option.none

/-- Parse an unsigned `Decimal` mantissa with optional exponent:
`digits [. digits] [exponent]`, at least one digit overall.  The result
is kept syntactic — digit value and decimal exponent — so concrete
parses reduce without rational normalization. -/
def parseMantissa? (cs : List Char) : Option (Nat × Int) :=
  let ip := cs.takeWhile Char.isDigit
  let rest := cs.dropWhile Char.isDigit
  match rest with
  | '.' :: rest2 =>
    let fp := rest2.takeWhile Char.isDigit
    let rest3 := rest2.dropWhile Char.isDigit
    if (ip ++ fp).isEmpty then Option.none
    else
      match parseExp? rest3 with
      | some e => some (digitsVal (ip ++ fp), e - (fp.length : Int))
      | Option.none => Option.none
  | _ =>
    if ip.isEmpty then Option.none
    else
      match parseExp? rest with
      | some e => some (digitsVal ip, e)
      | Option.none => Option.none

/-- The rational a parsed mantissa/exponent pair denotes. -/
def mantVal (me : Nat × Int) : Rat :=
  (me.1 : Rat) * (10 : Rat) ^ me.2

/-- Python `decimal.Decimal(s)` as an exact rational: surrounding
whitespace, an optional sign, digits with an optional fractional part and
an optional exponent.  `Option.none` models the `InvalidOperation`
exception (an `ArithmeticError`) that `Decimal` raises on any other
input. -/
def parseDecimal? (s : String) : Option Rat :=
  match stripWs s.toList with
  | '+' :: cs => (parseMantissa? cs).map mantVal
  | '-' :: cs => (parseMantissa? cs).map (fun me => -(mantVal me))
  | cs => (parseMantissa? cs).map mantVal

/-- Python `int(s)`: surrounding whitespace, optional sign, digits.
`Option.none` models the `ValueError` raised otherwise. -/
def pyInt? (s : String) : Option Int :=
  match stripWs s.toList with
  | '+' :: cs => if allDigits1 cs then some (Int.ofNat (digitsVal cs)) else Option.none
  | '-' :: cs => if allDigits1 cs then some (-(Int.ofNat (digitsVal cs))) else Option.none
  | cs => if allDigits1 cs then some (Int.ofNat (digitsVal cs)) else Option.none

/-- `_validate_numeric`'s coercion of the document value: a string has
thousands separators removed and goes through `Decimal`; an int or a
float is used directly (the `isinstance` guard skips the conversion, a
float keeping its exact double value); anything else goes through
`Decimal(str(value))`, which fails on `None` and on dicts.
`Option.none` models the raised exception. -/
def toDecimal? : Value → Option Rat
  | Value.str s => parseDecimal? (commaStrip s)
  | Value.int n => some (n : Rat)
  | Value.float q _ => some q
  | v => parseDecimal? (pyStr v)

/-- Whether the coerced value is still a Python float after
`_validate_numeric`'s `isinstance` guard: floats are the one numeric
kind that skips the `Decimal` conversion yet cannot take part in
`Decimal` arithmetic (`float - Decimal` raises `TypeError`, though
comparisons are allowed). -/
def isFloatVal : Value → Bool
  | Value.float _ _ => true
  | _ => false

/-- `Decimal(str(p))` for a rule parameter `p` (no comma stripping on
parameters in the source). -/
def paramDec (v : Value) : Option Rat :=
  parseDecimal? (pyStr v)

/-- The `parameters` object of a rule's `validation`; every key is
optional in the source (`parameters.get(...)`). -/
structure Params where
  data_type : Option String
  pattern : Option String
  case_sensitive : Option Bool
  min_value : Option Value
  max_value : Option Value
  expected_value : Option Value
  comparison_type : Option String
  comparison_date : Option String
  start_date : Option String
  end_date : Option String
deriving DecidableEq, Repr

/-- The empty `parameters` dict. -/
def Params.empty : Params :=
  { data_type := Option.none, pattern := Option.none, case_sensitive := Option.none,
    min_value := Option.none, max_value := Option.none, expected_value := Option.none,
    comparison_type := Option.none, comparison_date := Option.none,
    start_date := Option.none, end_date := Option.none }

/-- The `expected_value` check at the end of `_validate_numeric`: absent
means the checks fell through to `return True`; present means the
parameter is converted (`Decimal(str(...))`, a failure raising) and then
`abs(value - expected) < Decimal('0.01')` is returned — except that for
a float value the subtraction itself is float-minus-`Decimal`
arithmetic, which raises `TypeError`; every exception is caught by the
method's own handler, hence `false`. -/
def numCheckExpected (v : Rat) (isFloat : Bool) (p : Params) : Bool :=
  match p.expected_value with
  | Option.none => true
  | some ev =>
    match paramDec ev with
    | Option.none => false
    | some e =>
      if isFloat then false
      else decide (|v - e| < (1 : Rat) / 100)

/-- The `max_value` check of `_validate_numeric` (runs after the
`min_value` check; a failing conversion of the parameter raises;
float-`Decimal` comparisons are legal, so a float value is compared by
its exact value). -/
def numCheckMax (v : Rat) (isFloat : Bool) (p : Params) : Bool :=
  match p.max_value with
  | Option.none => numCheckExpected v isFloat p
  | some mv =>
    match paramDec mv with
    | Option.none => false
    | some m => if m < v then false else numCheckExpected v isFloat p

/-- The `min_value` check of `_validate_numeric`. -/
def numCheckMin (v : Rat) (isFloat : Bool) (p : Params) : Bool :=
  match p.min_value with
  | Option.none => numCheckMax v isFloat p
  | some mv =>
    match paramDec mv with
    | Option.none => false
    | some m => if v < m then false else numCheckMax v isFloat p

/-- `ComplianceAgent._validate_numeric`: coerce the value (failure is
caught by the method's own `except` and becomes `False`), remembering
whether it stayed a float; with the default `data_type` of `'decimal'`
run the min/max/expected checks, otherwise fall through to
`return True`. -/
def validate_numeric (value : Value) (p : Params) : Bool :=
  match toDecimal? value with
  | Option.none => false
  | some v =>
    if p.data_type.getD "decimal" = "decimal" then numCheckMin v (isFloatVal value) p
    else true

/-- The two Python-stdlib calls the code relies on, as oracles:
`rmatch p s` models `bool(re.match(p, s))`, with `Option.none` for the
`re.error` an invalid pattern raises; `pdate s` models
`datetime.fromisoformat(s)` as a point on a linear time scale, with
`Option.none` for the `ValueError` an unparseable date raises. -/
structure PyExt where
  rmatch : String → String → Option Bool
  pdate : String → Option Int

/-- The exact pattern string `_validate_regex` hands to `re.match`: the
rule's pattern (default empty), `(?i)`-prefixed when `case_sensitive`
(default `True`) is false. -/
def regexPattern (p : Params) : String :=
  if p.case_sensitive.getD true then p.pattern.getD "" else "(?i)" ++ p.pattern.getD ""

/-- `ComplianceAgent._validate_regex`: coerce the value to a string,
build the pattern, and match from the start; the method's own `except`
turns a raised `re.error` into `False`. -/
def validate_regex (ext : PyExt) (value : Value) (p : Params) : Bool :=
  match ext.rmatch (regexPattern p) (pyStr value) with
  | some b => b
  | Option.none => false

/-- `ComplianceAgent._validate_date_comparison`: coerce the value to a
string and parse it, parse `comparison_date` (default the empty string,
which never parses) before dispatching on `comparison_type` (default
`'equals'`); `between` additionally parses `start_date` and `end_date`.
Any parse failure is the `ValueError` the method's own `except` turns
into `False`; an unrecognized `comparison_type` falls through to
`return False`. -/
def validate_date_comparison (ext : PyExt) (value : Value) (p : Params) : Bool :=
  match ext.pdate (pyStr value) with
  | Option.none => false
  | some dv =>
    match ext.pdate (p.comparison_date.getD "") with
    | Option.none => false
    | some cd =>
      match p.comparison_type.getD "equals" with
      | "equals" => decide (dv = cd)
      | "before" => decide (dv < cd)
      | "after" => decide (cd < dv)
      | "between" =>
        match ext.pdate (p.start_date.getD ""), ext.pdate (p.end_date.getD "") with
        | some sd, some ed => decide (sd ≤ dv ∧ dv ≤ ed)
        | _, _ => false
      | _ => false

/-- The `validation` object of a rule.  `tolerance` and `allowed_days`
are read directly off `validation` by the cross-document validator. -/
structure Validation where
  type : Option String
  parameters : Option Params
  error_message : Option String
  tolerance : Option Value
  allowed_days : Option Value
deriving DecidableEq, Repr

/-- The empty `validation` dict (`rule.get('validation', {})`). -/
def Validation.empty : Validation :=
  { type := Option.none, parameters := Option.none, error_message := Option.none,
    tolerance := Option.none, allowed_days := Option.none }

/-- A compliance rule as `validate_documents` consumes it.  `rule_id`,
`name` and `severity` are accessed with `rule[...]` (the schema
guarantees them); `field` and `validation` with `rule.get(...)`. -/
structure Rule where
  rule_id : String
  name : String
  severity : String
  field : Option String
  validation : Option Validation
  applicable_documents : List String
deriving DecidableEq, Repr

/-- A single validation result dict. -/
structure Outcome where
  rule_id : String
  name : String
  status : String
  message : Option String
  severity : String
  timestamp : String
deriving DecidableEq, Repr

/-- The result dict every branch of the agent builds: the rule's id,
name and severity plus a status, a message and `datetime.now()`. -/
def mkOutcome (rule : Rule) (status : String) (message : Option String) (now : String) : Outcome :=
  { rule_id := rule.rule_id, name := rule.name, status := status,
    message := message, severity := rule.severity, timestamp := now }

/-- Resolved document data: the flat dict `document_data`.  Earlier
entries shadow later ones, matching the dict-merge in
`validate_documents` where the synthetic vendor keys override
`extracted_fields`. -/
def Data := List (String × Value)
deriving DecidableEq, Repr

/-- Python `d.get(k)` on the flat document dict: the first entry with
the key, `None` when absent. -/
def dataGet (data : Data) (k : String) : Option Value :=
  match List.find? (fun e => e.1 = k) (data : List (String × Value)) with
  | some e => some e.2
  | Option.none => Option.none

/-- Python `k in d` on the flat document dict. -/
def dataHas (data : Data) (k : String) : Bool :=
  (dataGet data k).isSome

/-- How `_validate_rule` renders the field of its "not found" message:
`f"Field '{field}' ..."` prints `None` for a missing `field` key. -/
def optStr : Option String → String
  | some s => s
  | Option.none => "None"

/-- `ComplianceAgent._validate_rule`: the field-presence check runs
first (a missing field is a `failed` outcome and nothing else runs);
then dispatch on `validation['type']` with unknown types yielding the
`error` outcome; the three known validators return a Bool that selects
`passed` (no message) or `failed` (the rule's `error_message`, default
`'Validation failed'`).  The method's trailing `except` is unreachable:
each branch validator already catches everything it can raise. -/
def validate_rule (ext : PyExt) (now : String) (rule : Rule) (data : Data) : Outcome :=
  let validation := rule.validation.getD Validation.empty
  let lookup := match rule.field with
    | some f => dataGet data f
    | Option.none => Option.none
  match lookup with
  | Option.none =>
    mkOutcome rule "failed"
      (some ("Field '" ++ optStr rule.field ++ "' not found in document")) now
  | some value =>
    let params := validation.parameters.getD Params.empty
    let errMsg := validation.error_message.getD "Validation failed"
    let passFail := fun (b : Bool) =>
      if b then mkOutcome rule "passed" Option.none now
      else mkOutcome rule "failed" (some errMsg) now
    match validation.type with
    | some "numeric" => passFail (validate_numeric value params)
    | some "regex" => passFail (validate_regex ext value params)
    | some "date_comparison" => passFail (validate_date_comparison ext value params)
    | t => mkOutcome rule "error" (some ("Unknown validation type: " ++ optStr t)) now

/-- String normalization the cross-document validator applies to string
values: `value.strip().lower()`. -/
def normalizeVal : Value → Value
  | Value.str s => Value.str (pyLower (pyStrip s))
  | v => v

/-- An entry of the orchestrator's `processed_docs` list: a dict with
exactly the keys `document_type`, `document_data` and `status`. -/
structure ProcessedDoc where
  document_type : String
  document_data : Data
  status : String
deriving DecidableEq, Repr

/-- Python `doc.get(field)` on a `processed_docs` entry.  The entry is
the three-key dict built in `validate_documents`, so only those three
keys ever resolve; the document's own fields live one level down, under
`document_data`, where this lookup never reaches. -/
def pdGet (pd : ProcessedDoc) (field : String) : Option Value :=
  if field = "document_type" then some (Value.str pd.document_type)
  else if field = "document_data" then some Value.obj
  else if field = "status" then some (Value.str pd.status)
  else Option.none

/-- The `matching_docs` accumulation of
`_validate_cross_document_consistency`: skip `pending` entries and
entries where `doc.get(field)` is `None`, normalize string values, keep
the entry alongside its normalized value. -/
def matchingDocs (field : String) (processed : List ProcessedDoc) : List (ProcessedDoc × Value) :=
  processed.filterMap (fun pd =>
    if pd.status = "pending" then Option.none
    else
      match pdGet pd field with
      | Option.none => Option.none
      | some dv => some (pd, normalizeVal dv))

/-- `ComplianceAgent._convert_to_decimal`: strip commas from strings and
run `Decimal(str(value))`.  A bad value raises `InvalidOperation`, which
the method's own `except (ValueError, TypeError)` does not catch, so
`Option.none` here propagates to the caller's handlers. -/
def convert_to_decimal : Value → Option Rat
  | Value.str s => parseDecimal? (commaStrip s)
  | v => parseDecimal? (pyStr v)

/-- Message of the outer `except Exception` handler of the cross-document
validator when a `Decimal` conversion raises `InvalidOperation` (the
inner handlers list only `ValueError`/`TypeError`). -/
def crossConvErr : String :=
  "Error in cross-document validation: [<class 'decimal.ConversionSyntax'>]"

/-- Message of the outer handler for the `date_consistency` branch: the
agent has no `_parse_date` method, so entering the branch raises
`AttributeError` immediately. -/
def crossDateErr : String :=
  "Error in cross-document validation: 'ComplianceAgent' object has no attribute '_parse_date'"

/-- The `numeric_consistency` comparison loop: convert each prior value
(a conversion failure raises past the loop's `except`, reaching the
outer handler), fail on the first value further than `tolerance` from
the current one. -/
def crossNumLoop (cd tol : Rat) (cvRepr tolRepr : String) :
    List (ProcessedDoc × Value) → Bool × String
  | [] => (true, "")
  | (_, v) :: rest =>
    match convert_to_decimal v with
    | Option.none => (false, crossConvErr)
    | some d =>
      if tol < |cd - d| then
        (false, "Value '" ++ cvRepr ++ "' differs from previous document value '" ++
          pyStr v ++ "' by more than " ++ tolRepr)
      else crossNumLoop cd tol cvRepr tolRepr rest

/-- The `exact_match` comparison loops: report the first prior value
that differs from the (normalized) current one.  The string branch
prints the un-normalized values from the dicts; the other branch prints
the compared values. -/
def crossExactMatch (field : String) (cv0 cv : Value)
    (matching : List (ProcessedDoc × Value)) : Bool × String :=
  match cv with
  | Value.str _ =>
    match matching.find? (fun pv => !(cv == pv.2)) with
    | some pv =>
      (false, "Value '" ++ pyStr cv0 ++ "' does not match previous document value '" ++
        pyStr ((pdGet pv.1 field).getD Value.pynone) ++ "' (case-insensitive comparison)")
    | Option.none => (true, "")
  | _ =>
    match matching.find? (fun pv => !(cv == pv.2)) with
    | some pv =>
      (false, "Value '" ++ pyStr cv ++ "' does not match previous document value '" ++
        pyStr pv.2 ++ "'")
    | Option.none => (true, "")

/-- `ComplianceAgent._validate_cross_document_consistency`.  The whole
body sits in a `try` whose handler returns `(False, "Error in
cross-document validation: <e>")`: a rule without `field` or
`validation` raises `KeyError` there.  A current value of `None` (field
absent, or present as `None`) fails with the "not found" message.  When
no prior entry yields a value the function returns `(True, "")` before
any comparison.  Otherwise it dispatches on the validation sub-type,
with unknown sub-types falling through to `(True, "")`. -/
def validate_cross (rule : Rule) (current : Data) (processed : List ProcessedDoc) :
    Bool × String :=
  match rule.field with
  | Option.none => (false, "Error in cross-document validation: 'field'")
  | some field =>
    match rule.validation with
    | Option.none => (false, "Error in cross-document validation: 'validation'")
    | some validation =>
      let vtype := validation.type.getD "exact_match"
      let cv0 := (dataGet current field).getD Value.pynone
      if cv0 = Value.pynone then
        (false, "Field '" ++ field ++ "' not found in current document")
      else
        let cv := normalizeVal cv0
        match matchingDocs field processed with
        | [] => (true, "")
        | matching =>
          match vtype with
          | "exact_match" => crossExactMatch field cv0 cv matching
          | "numeric_consistency" =>
            match convert_to_decimal cv with
            | Option.none => (false, crossConvErr)
            | some cd =>
              let tolVal := validation.tolerance.getD (Value.str "0.01")
              match paramDec tolVal with
              | Option.none => (false, crossConvErr)
              | some tol => crossNumLoop cd tol (pyStr cv) (pyStr tolVal) matching
          | "date_consistency" => (false, crossDateErr)
          | _ => (true, "")

/-- An input document of `validate_documents`: its type (absent key and
present-but-`None` both map to `Option.none`; the falsy empty string is
kept distinct), its `extracted_fields`, and the three values read off
`vendor_info` (each `None`/empty when absent, per `.get`). -/
structure Document where
  document_type : Option String
  extracted_fields : List (String × Value)
  vendor_name : Value
  vendor_address : Value
  vendor_contact : Value
deriving DecidableEq, Repr

/-- The flat `document_data` dict: `extracted_fields` merged with the
synthetic vendor keys, the latter overriding (listed first because
`dataGet` takes the first entry with a key). -/
def documentData (doc : Document) : Data :=
  (("vendor_name", doc.vendor_name) :: ("vendor_address", doc.vendor_address) ::
    ("vendor_contact", doc.vendor_contact) :: doc.extracted_fields : List (String × Value))

/-- `if not document_type:` — Python falsiness of the optional type. -/
def falsyType : Option String → Bool
  | Option.none => true
  | some s => strIsEmpty s

/-- The applicable-rule filter of `validate_documents`. -/
def applicableRules (rules : List Rule) (dt : String) : List Rule :=
  rules.filter (fun r => r.applicable_documents.contains dt)

/-- The cross-document dispatch test of the rule loop:
`rule.get('validation', {}).get('type') == 'cross_document_consistency'`. -/
def isCrossRule (rule : Rule) : Bool :=
  (rule.validation.getD Validation.empty).type == some "cross_document_consistency"

/-- One iteration of the rule loop: cross-document rules go through
`validate_cross` (status from the Bool, message always recorded), all
others through `_validate_rule`. -/
def evalOutcome (ext : PyExt) (now : String) (rule : Rule) (data : Data)
    (processed : List ProcessedDoc) : Outcome :=
  if isCrossRule rule then
    let r := validate_cross rule data processed
    mkOutcome rule (if r.1 then "passed" else "failed") (some r.2) now
  else validate_rule ext now rule data

/-- The outcomes a document collects: every applicable rule, in store
order, evaluated against the same resolved data and the same list of
previously processed documents. -/
def docOutcomes (ext : PyExt) (now : String) (rules : List Rule) (dt : String)
    (data : Data) (processed : List ProcessedDoc) : List Outcome :=
  (applicableRules rules dt).map (fun r => evalOutcome ext now r data processed)

/-- A per-document summary (`get_validation_summary`). -/
structure DocSummary where
  total_rules : Nat
  passed : Nat
  failed : Nat
  errors : Nat
  high_severity_failures : Nat
  timestamp : String
deriving DecidableEq, Repr

/-- `ComplianceAgent.get_validation_summary`. -/
def validation_summary (now : String) (results : List Outcome) : DocSummary :=
  { total_rules := results.length,
    passed := results.countP (fun r => r.status == "passed"),
    failed := results.countP (fun r => r.status == "failed"),
    errors := results.countP (fun r => r.status == "error"),
    high_severity_failures :=
      (results.filter (fun r => r.status == "failed" && r.severity == "high")).length,
    timestamp := now }

/-- One entry of `document_results`. -/
structure DocResult where
  document_index : Nat
  document_type : String
  document_data : Data
  validation_results : List Outcome
  summary : DocSummary
deriving DecidableEq, Repr

/-- The corpus-wide summary (`_get_overall_summary`). -/
structure OverallSummary where
  total_documents : Nat
  total_rules_checked : Nat
  total_passed : Nat
  total_failed : Nat
  total_errors : Nat
  total_high_severity_failures : Nat
  timestamp : String
deriving DecidableEq, Repr

/-- `ComplianceAgent._get_overall_summary`: sums over the per-document
results; `total_documents` is the length of `all_results` (skipped
documents never reach it). -/
def overall_summary (now : String) (all : List DocResult) : OverallSummary :=
  { total_documents := all.length,
    total_rules_checked := (all.map (fun d => d.validation_results.length)).sum,
    total_passed := (all.map (fun d => d.summary.passed)).sum,
    total_failed := (all.map (fun d => d.summary.failed)).sum,
    total_errors := (all.map (fun d => d.summary.errors)).sum,
    total_high_severity_failures := (all.map (fun d => d.summary.high_severity_failures)).sum,
    timestamp := now }

/-- The document loop of `validate_documents`: documents with a falsy
`document_type` are skipped entirely (the index still advances, since
`enumerate` numbers every input); otherwise the document's outcomes are
collected against the processed-so-far list, and the document is
appended (status `processed`) for the benefit of later cross-document
checks. -/
def validateDocsAux (ext : PyExt) (now : String) (rules : List Rule) :
    List Document → Nat → List ProcessedDoc → List DocResult
  | [], _, _ => []
  | doc :: rest, idx, processed =>
    match doc.document_type with
    | Option.none => validateDocsAux ext now rules rest (idx + 1) processed
    | some dt =>
      if strIsEmpty dt then validateDocsAux ext now rules rest (idx + 1) processed
      else
        let data := documentData doc
        let results := docOutcomes ext now rules dt data processed
        let pd : ProcessedDoc :=
          { document_type := dt, document_data := data, status := "processed" }
        { document_index := idx, document_type := dt, document_data := data,
          validation_results := results, summary := validation_summary now results }
          :: validateDocsAux ext now rules rest (idx + 1) (processed ++ [pd])

/-- The dict `validate_documents` returns. -/
structure BatchResult where
  total_documents : Nat
  document_results : List DocResult
  overall_summary : OverallSummary
deriving DecidableEq, Repr

/-- `ComplianceAgent.validate_documents`: `total_documents` is
`len(documents)` — the raw input length — while `document_results` and
the overall summary are built from the processed documents only. -/
def validate_documents (ext : PyExt) (now : String) (rules : List Rule)
    (docs : List Document) : BatchResult :=
  let all := validateDocsAux ext now rules docs 1 []
  { total_documents := docs.length, document_results := all,
    overall_summary := overall_summary now all }

/-- The view `_generate_rule_id` takes of an existing rule: a dict that
may or may not carry a string `rule_id` (entries that are not dicts or
lack the key are skipped by the `isinstance`/`in` guards). -/
structure GenRule where
  rule_id : Option String
deriving DecidableEq, Repr

/-- The category-to-prefix table of `_generate_rule_id`
(`.get(category, 'GEN')`). -/
def prefixOf (category : String) : String :=
  if category = "invoice" then "INV"
  else if category = "purchase_order" then "PO"
  else if category = "goods_receipt" then "GRN"
  else "GEN"

/-- The numeric suffix `_generate_rule_id` reads off a rule id:
`int(rule_id.split('-')[1])`, with `Option.none` both for the
`IndexError` (no dash at all) and the `ValueError` (non-numeric
segment) the loop's `except` skips over. -/
def suffixNum (id : String) : Option Int :=
  match (splitDash id).get? 1 with
  | Option.none => Option.none
  | some seg => pyInt? seg

/-- The `max_num` loop of `_generate_rule_id`, starting from 0. -/
def ruleIdMax (pfx : String) (rules : List GenRule) : Int :=
  rules.foldl (fun m r =>
    match r.rule_id with
    | some id =>
      if strStartsWith id pfx then
        match suffixNum id with
        | some n => max m n
        | Option.none => m
      else m
    | Option.none => m) 0

/-- Zero-padding of Python's `f"{n:03d}"`: minimum width 3, the sign
counted in the width. -/
def pad3 (n : Int) : String :=
  let s := toString n.natAbs
  let padded := String.mk (List.replicate (3 - (s.length + (if n < 0 then 1 else 0))) '0') ++ s
  if n < 0 then "-" ++ padded else padded

/-- `ComplianceRuleGenerator._generate_rule_id` (the fallback
time-seeded id of its outer handler is unreachable: the loop body
catches everything its own statements can raise). -/
def generate_rule_id (category : String) (existing : List GenRule) : String :=
  let pfx := prefixOf category
  pfx ++ "-" ++ pad3 (ruleIdMax pfx existing + 1)

/-- The `metadata` object of the persisted rule file. -/
structure SchemaMetadata where
  last_updated : String
  author : String
  description : String
deriving DecidableEq, Repr

/-- The persisted rule file as `json.load` returns it: a dict in which
any of the expected keys may be missing. -/
structure RawSchema where
  version : Option String
  metadata : Option SchemaMetadata
  document_types : Option (List String)
  rules : Option (List GenRule)
deriving DecidableEq, Repr

/-- What reading and parsing the persisted rule file can produce: the
parsed dict, or a raised exception (missing file, corrupt JSON). -/
inductive LoadResult where
  | parsed (s : RawSchema)
  | failure (msg : String)
deriving DecidableEq, Repr

/-- `ComplianceAgent._load_rules`: return the parsed dict unchecked; on
any exception return the literal `{"rules": []}` — no `document_types`,
no `metadata`. -/
def load_rules : LoadResult → RawSchema
  | LoadResult.parsed s => s
  | LoadResult.failure _ =>
    { version := Option.none, metadata := Option.none,
      document_types := Option.none, rules := some [] }

/-- The default schema `_load_schema` falls back to (`today` stands for
`datetime.now().strftime("%Y-%m-%d")`). -/
def default_schema (today : String) : RawSchema :=
  { version := some "1.0",
    metadata := some { last_updated := today, author := "Compliance Agent",
                       description := "Default schema structure" },
    document_types := some ["invoice", "purchase_order", "goods_receipt"],
    rules := some [] }

/-- `ComplianceRuleGenerator._load_schema`: a read failure, or a parsed
dict missing any of `rules`, `document_types`, `metadata`, falls back to
the default schema; otherwise the parsed dict is returned as-is. -/
def load_schema (today : String) : LoadResult → RawSchema
  | LoadResult.failure _ => default_schema today
  | LoadResult.parsed s =>
    if s.rules.isNone then default_schema today
    else if s.document_types.isNone then default_schema today
    else if s.metadata.isNone then default_schema today
    else s

/-- An outcome with its wall-clock timestamp blanked. -/
def eraseOutcomeTs (o : Outcome) : Outcome := { o with timestamp := "" }

/-- A document summary with its wall-clock timestamp blanked. -/
def eraseDocSummaryTs (s : DocSummary) : DocSummary := { s with timestamp := "" }

/-- A document result with every wall-clock timestamp blanked. -/
def eraseDocResultTs (d : DocResult) : DocResult :=
  { d with validation_results := d.validation_results.map eraseOutcomeTs,
           summary := eraseDocSummaryTs d.summary }

/-- A batch result with every wall-clock timestamp blanked. -/
def eraseBatchTs (b : BatchResult) : BatchResult :=
  { b with document_results := b.document_results.map eraseDocResultTs,
           overall_summary := { b.overall_summary with timestamp := "" } }

/-- A concrete oracle assignment: no string matches any pattern, no
string parses as a date.  Rules under test that use neither `re` nor
`datetime` behave identically under every oracle. -/
def ext0 : PyExt := { rmatch := fun _ _ => some false, pdate := fun _ => Option.none }

/-- A numeric rule with empty parameters over the `amount` field. -/
def numericRule : Rule :=
  { rule_id := "INV-001", name := "Amount is numeric", severity := "high",
    field := some "amount",
    validation := some { Validation.empty with type := some "numeric" },
    applicable_documents := ["invoice"] }

/-- The spec-described bounds condition for a numeric rule: the value
meets `min_value` and `max_value` where present (a bound that fails to
convert counts as unmet). -/
def boundsOk (v : Rat) (p : Params) : Bool :=
  (match p.min_value with
   | Option.none => true
   | some mv =>
     match paramDec mv with
     | Option.none => false
     | some m => decide (m ≤ v)) &&
  (match p.max_value with
   | Option.none => true
   | some mv =>
     match paramDec mv with
     | Option.none => false
     | some m => decide (v ≤ m))

theorem dataGet_of_not_has {data : Data} {f : String} (h : dataHas data f = false) :
    dataGet data f = Option.none := by
  unfold dataHas at h
  cases hd : dataGet data f with
  | none => rfl
  | some v => rw [hd] at h; simp at h

/-- C1 counterexample: a numeric rule over a value that `Decimal` cannot
coerce ("abc") yields status `failed` — not the `error` status the claim
requires — because `_validate_numeric` catches the conversion error
itself and returns `False`, which `_validate_rule` maps to `failed`. -/
theorem C1_nonCoercible_counterexample :
    (validate_rule ext0 "t" numericRule [("amount", Value.str "abc")]).status = "failed" ∧
    (validate_rule ext0 "t" numericRule [("amount", Value.str "abc")]).status ≠ "error" := by
  constructor <;> decide

/-- C1 amended: a value-conversion failure inside a numeric, regex or
date-comparison rule never propagates, but it is downgraded to a
`failed` outcome carrying the rule's `error_message` (default
"Validation failed"), not to an `error` outcome. -/
theorem C1_nonCoercible_failed (ext : PyExt) (now : String) (rule : Rule) (data : Data)
    (f : String) (v : Value) (val : Validation)
    (hf : rule.field = some f) (hv : dataGet data f = some v)
    (hval : rule.validation = some val) :
    (val.type = some "numeric" → toDecimal? v = Option.none →
      validate_rule ext now rule data =
        mkOutcome rule "failed" (some (val.error_message.getD "Validation failed")) now) ∧
    (val.type = some "regex" →
      ext.rmatch (regexPattern (val.parameters.getD Params.empty)) (pyStr v) = Option.none →
      validate_rule ext now rule data =
        mkOutcome rule "failed" (some (val.error_message.getD "Validation failed")) now) ∧
    (val.type = some "date_comparison" → ext.pdate (pyStr v) = Option.none →
      validate_rule ext now rule data =
        mkOutcome rule "failed" (some (val.error_message.getD "Validation failed")) now) := by
  refine ⟨fun ht hc => ?_, fun ht hc => ?_, fun ht hc => ?_⟩ <;>
    simp [validate_rule, hf, hv, hval, ht, validate_numeric, validate_regex,
      validate_date_comparison, hc]

/-- C1 witness: the amended statement applied to a concrete numeric rule
and the non-coercible value "xyz". -/
theorem C1_nonCoercible_witness :
    validate_rule ext0 "w" numericRule [("amount", Value.str "xyz")] =
      mkOutcome numericRule "failed" (some "Validation failed") "w" :=
  (C1_nonCoercible_failed ext0 "w" numericRule [("amount", Value.str "xyz")]
    "amount" (Value.str "xyz") { Validation.empty with type := some "numeric" }
    rfl rfl rfl).1 rfl (by decide)

/-- C10: when the rule's top-level `field` key names a field absent from
the resolved document data, the outcome is a `failed` (not `error`)
outcome with the "Field ... not found in document" message, and the
outcome is entirely independent of the rule's `validation` object — no
type-specific validation runs and the field name is not read from
`validation`. -/
theorem C10_missing_field_failed (ext : PyExt) (now : String) (rule : Rule) (data : Data)
    (f : String) (hf : rule.field = some f) (hmiss : dataHas data f = false) :
    validate_rule ext now rule data =
      mkOutcome rule "failed" (some ("Field '" ++ f ++ "' not found in document")) now ∧
    ∀ v' : Option Validation,
      validate_rule ext now { rule with validation := v' } data =
        mkOutcome rule "failed" (some ("Field '" ++ f ++ "' not found in document")) now := by
  have hget := dataGet_of_not_has hmiss
  constructor
  · simp [validate_rule, hf, hget, optStr]
  · intro v'
    simp [validate_rule, hf, hget, optStr, mkOutcome]

/-- C10 witness: the theorem applied to a regex rule over a document
without the rule's field. -/
theorem C10_missing_field_witness :
    validate_rule ext0 "t"
        { numericRule with rule_id := "INV-002", field := some "invoice_number" }
        [("amount", Value.int 3)] =
      mkOutcome { numericRule with rule_id := "INV-002", field := some "invoice_number" }
        "failed" (some ("Field '" ++ "invoice_number" ++ "' not found in document")) "t" :=
  (C10_missing_field_failed ext0 "t"
    { numericRule with rule_id := "INV-002", field := some "invoice_number" }
    [("amount", Value.int 3)] "invoice_number" rfl (by decide)).1

/-- Parameters of a numeric rule carrying only `expected_value = "100.00"`. -/
def c2params : Params :=
  { Params.empty with expected_value := some (Value.str "100.00") }


/-- C2 counterexample: the claimed iff fails in two ways.  With
`data_type` set to anything but `decimal` the expected-value check never
runs — the value 42 against `expected_value = 100.00` passes although
`|42 - 100| < 0.01` is false.  And a float value (here the exactly
representable double 100.0078125 = 12801/128) fails against
`expected_value = 100.00` although its difference 0.0078125 is below the
tolerance: the float skips the `Decimal` coercion and
`abs(float - Decimal)` raises `TypeError`, caught to `False`. -/
theorem C2_tolerance_counterexample :
    (validate_numeric (Value.int 42)
        { c2params with data_type := some "integer" } = true ∧
      ¬ (|(42 : Rat) - 100| < (1 : Rat) / 100)) ∧
    (validate_numeric (Value.float ((12801 : Rat) / 128) "100.0078125") c2params = false ∧
      |(12801 : Rat) / 128 - 100| < (1 : Rat) / 100) := by
  refine ⟨⟨by decide, by norm_num⟩, ⟨by decide, ?_⟩⟩
  rw [abs_lt]
  constructor <;> norm_num

theorem numCheckExpected_float (v : Rat) (p : Params)
    (h : p.expected_value.isSome = true) :
    numCheckExpected v true p = false := by
  unfold numCheckExpected
  cases hev : p.expected_value with
  | none => rw [hev] at h; simp at h
  | some ev =>
    cases hpd : paramDec ev with
    | none => simp [hpd]
    | some e => simp [hpd]

theorem numCheckMax_float (v : Rat) (p : Params)
    (h : p.expected_value.isSome = true) :
    numCheckMax v true p = false := by
  unfold numCheckMax
  cases hm : p.max_value with
  | none => exact numCheckExpected_float v p h
  | some mv =>
    cases hpd : paramDec mv with
    | none => simp [hpd]
    | some m =>
      simp only [hpd]
      split
      · rfl
      · exact numCheckExpected_float v p h

theorem numCheckMin_float (v : Rat) (p : Params)
    (h : p.expected_value.isSome = true) :
    numCheckMin v true p = false := by
  unfold numCheckMin
  cases hm : p.min_value with
  | none => exact numCheckMax_float v p h
  | some mv =>
    cases hpd : paramDec mv with
    | none => simp [hpd]
    | some m =>
      simp only [hpd]
      split
      · rfl
      · exact numCheckMax_float v p h

/-- C2 amended: for a numeric rule whose `data_type` is `decimal` (or
absent, the default) and whose value is an int, `Decimal` or coercible
string — not a float — satisfying the `min_value`/`max_value` bounds
where present, the rule passes iff the absolute difference between the
value and `expected_value` is strictly below 0.01.  A float value,
although it takes part in the bounds comparisons normally, always fails
a rule carrying `expected_value`: `abs(float - Decimal)` raises
`TypeError`, which the validator's own handler turns into `False`. -/
theorem C2_expected_tolerance :
    (∀ (value : Value) (p : Params) (v e : Rat) (ev : Value),
      toDecimal? value = some v → isFloatVal value = false →
      (p.data_type = Option.none ∨ p.data_type = some "decimal") →
      p.expected_value = some ev → paramDec ev = some e →
      boundsOk v p = true →
      (validate_numeric value p = true ↔ |v - e| < (1 : Rat) / 100)) ∧
    (∀ (q : Rat) (s : String) (p : Params),
      (p.data_type = Option.none ∨ p.data_type = some "decimal") →
      p.expected_value.isSome = true →
      validate_numeric (Value.float q s) p = false) := by
  constructor
  · intro value p v e ev hv hfl hdt hev he hb
    have hdt' : p.data_type.getD "decimal" = "decimal" := by
      rcases hdt with h | h <;> simp [h]
    unfold boundsOk at hb
    rw [Bool.and_eq_true] at hb
    obtain ⟨h1, h2⟩ := hb
    have hmin : numCheckMin v false p = numCheckMax v false p := by
      unfold numCheckMin
      cases hm : p.min_value with
      | none => rfl
      | some mv =>
        simp only [hm] at h1
        cases hpd : paramDec mv with
        | none => simp only [hpd] at h1; exact absurd h1 (by simp)
        | some m =>
          simp only [hpd, decide_eq_true_eq] at h1
          simp only [hpd, if_neg (not_lt.mpr h1)]
    have hmax : numCheckMax v false p = numCheckExpected v false p := by
      unfold numCheckMax
      cases hm : p.max_value with
      | none => rfl
      | some mv =>
        simp only [hm] at h2
        cases hpd : paramDec mv with
        | none => simp only [hpd] at h2; exact absurd h2 (by simp)
        | some m =>
          simp only [hpd, decide_eq_true_eq] at h2
          simp only [hpd, if_neg (not_lt.mpr h2)]
    have hexp : numCheckExpected v false p = decide (|v - e| < (1 : Rat) / 100) := by
      unfold numCheckExpected
      simp [hev, he]
    simp only [validate_numeric, hv, hdt', if_true, hfl, hmin, hmax, hexp,
      decide_eq_true_eq]
  · intro q s p hdt hexp
    have hdt' : p.data_type.getD "decimal" = "decimal" := by
      rcases hdt with h | h <;> simp [h]
    unfold validate_numeric
    simp only [toDecimal?, isFloatVal]
    rw [if_pos hdt']
    exact numCheckMin_float q p hexp

theorem paramDec_witness_100 : paramDec (Value.str "100.00") = some (mantVal (10000, -2)) := rfl

theorem toDec_witness_100009 :
    toDecimal? (Value.str "100.009") = some (mantVal (100009, -3)) := rfl

theorem toDec_witness_10002 :
    toDecimal? (Value.str "100.02") = some (mantVal (10002, -2)) := rfl

theorem boundsOk_witness_1 : boundsOk (mantVal (100009, -3)) c2params = true := rfl

theorem boundsOk_witness_2 : boundsOk (mantVal (10002, -2)) c2params = true := rfl

/-- C2 witness: against `expected_value = 100.00`, the string value
`100.009` (difference 0.009) passes, the string value `100.02`
(difference 0.02) fails, and the float value 100.125 = 801/8 fails
despite the bounds being absent, all by the amended theorem. -/
theorem C2_tolerance_witness :
    validate_numeric (Value.str "100.009") c2params = true ∧
    ¬ (validate_numeric (Value.str "100.02") c2params = true) ∧
    validate_numeric (Value.float ((801 : Rat) / 8) "100.125") c2params = false := by
  refine ⟨?_, ?_, ?_⟩
  · exact (C2_expected_tolerance.1 (Value.str "100.009") c2params (mantVal (100009, -3))
      (mantVal (10000, -2)) (Value.str "100.00") toDec_witness_100009 rfl (Or.inl rfl) rfl
      paramDec_witness_100 boundsOk_witness_1).mpr
      (by rw [abs_lt]; constructor <;> simp [mantVal] <;> norm_num)
  · intro hpass
    have h := (C2_expected_tolerance.1 (Value.str "100.02") c2params (mantVal (10002, -2))
      (mantVal (10000, -2)) (Value.str "100.00") toDec_witness_10002 rfl (Or.inl rfl) rfl
      paramDec_witness_100 boundsOk_witness_2).mp hpass
    rw [abs_lt] at h
    have h2 := h.2
    simp [mantVal] at h2
    norm_num at h2
  · exact C2_expected_tolerance.2 ((801 : Rat) / 8) "100.125" c2params (Or.inl rfl) rfl

/-- The suffixes the claim describes: among existing rule ids sharing
the prefix, the numeric value of the segment after the first dash,
malformed ids ignored. -/
def specSuffixes (pfx : String) (existing : List GenRule) : List Int :=
  existing.filterMap (fun r =>
    match r.rule_id with
    | some id => if strStartsWith id pfx then suffixNum id else Option.none
    | Option.none => Option.none)

theorem foldl_max_filterMap (pfx : String) :
    ∀ (l : List GenRule) (a : Int),
      l.foldl (fun m r =>
        match r.rule_id with
        | some id =>
          if strStartsWith id pfx then
            match suffixNum id with
            | some n => max m n
            | Option.none => m
          else m
        | Option.none => m) a
      = (specSuffixes pfx l).foldl max a := by
  intro l
  induction l with
  | nil => intro a; rfl
  | cons r t ih =>
    intro a
    cases hr : r.rule_id with
    | none => simp only [specSuffixes, List.filterMap_cons, hr, List.foldl_cons]; exact ih a
    | some id =>
      cases hs : strStartsWith id pfx with
      | false =>
        simp only [specSuffixes, List.filterMap_cons, hr, hs, List.foldl_cons,
          Bool.false_eq_true, if_false]
        exact ih a
      | true =>
        cases hn : suffixNum id with
        | none =>
          simp only [specSuffixes, List.filterMap_cons, hr, hs, hn, List.foldl_cons, if_true]
          exact ih a
        | some n =>
          simp only [specSuffixes, List.filterMap_cons, hr, hs, hn, List.foldl_cons, if_true]
          exact ih (max a n)

/-- C7: the generated rule id is the category's prefix followed by one
plus the maximum numeric suffix (the digits after the first dash) among
existing rule ids sharing that prefix, zero-padded to three digits, with
malformed ids ignored; in particular `INV-001, INV-003` yield
`INV-004`. -/
theorem C7_rule_id_generation :
    (∀ (category : String) (existing : List GenRule),
      generate_rule_id category existing =
        prefixOf category ++ "-" ++
          pad3 ((specSuffixes (prefixOf category) existing).foldl max 0 + 1)) ∧
    generate_rule_id "invoice"
      [{ rule_id := some "INV-001" }, { rule_id := some "INV-003" }] = "INV-004" := by
  constructor
  · intro category existing
    show prefixOf category ++ "-" ++ pad3 (ruleIdMax (prefixOf category) existing + 1) = _
    unfold ruleIdMax
    rw [foldl_max_filterMap]
  · decide

/-- C9 counterexample: on a corrupt rules file the agent's loader falls
back to the bare `{"rules": []}`, which does not contain the three known
document types (it has no `document_types` key at all). -/
theorem C9_fallback_counterexample :
    load_rules (LoadResult.failure "Expecting value: line 1 column 1 (char 0)") =
      { version := Option.none, metadata := Option.none,
        document_types := Option.none, rules := some [] } ∧
    (load_rules (LoadResult.failure "Expecting value: line 1 column 1 (char 0)")).document_types
      ≠ some ["invoice", "purchase_order", "goods_receipt"] := by
  exact ⟨rfl, by decide⟩

/-- C9 amended: neither loader raises — both are total over every
persisted state.  The generator's `_load_schema` falls back to a default
carrying the three known document types and always returns a schema with
`rules`, `document_types` and `metadata` present; the agent's
`_load_rules` falls back to `{"rules": []}` with no document types. -/
theorem C9_load_fallbacks :
    (∀ msg : String, load_rules (LoadResult.failure msg) =
      { version := Option.none, metadata := Option.none,
        document_types := Option.none, rules := some [] }) ∧
    (∀ today msg : String,
      load_schema today (LoadResult.failure msg) = default_schema today) ∧
    (∀ today : String, (default_schema today).document_types =
      some ["invoice", "purchase_order", "goods_receipt"]) ∧
    (∀ (today : String) (input : LoadResult),
      (load_schema today input).rules.isSome ∧
      (load_schema today input).document_types.isSome ∧
      (load_schema today input).metadata.isSome) := by
  refine ⟨fun msg => rfl, fun today msg => rfl, fun today => rfl, fun today input => ?_⟩
  cases input with
  | failure msg => simp [load_schema, default_schema]
  | parsed s =>
    simp only [load_schema]
    split_ifs with h1 h2 h3
    · simp [default_schema]
    · simp [default_schema]
    · simp [default_schema]
    · rw [Option.isNone_iff_eq_none] at h1 h2 h3
      refine ⟨?_, ?_, ?_⟩ <;> simp [Option.isSome_iff_ne_none, h1, h2, h3]

theorem validateDocsAux_length (ext : PyExt) (now : String) (rules : List Rule) :
    ∀ (docs : List Document) (idx : Nat) (processed : List ProcessedDoc),
      (validateDocsAux ext now rules docs idx processed).length =
        (docs.filter (fun d => !falsyType d.document_type)).length := by
  intro docs
  induction docs with
  | nil => intro idx pr; rfl
  | cons d t ih =>
    intro idx pr
    cases hd : d.document_type with
    | none =>
      have hp : (!falsyType Option.none) = false := by simp [falsyType]
      simp only [validateDocsAux, hd, List.filter_cons, hp, Bool.false_eq_true, if_false]
      exact ih (idx + 1) pr
    | some s =>
      cases hs : strIsEmpty s with
      | true =>
        have hp : (!falsyType (some s)) = false := by simp [falsyType, hs]
        simp only [validateDocsAux, hd, hs, if_true, List.filter_cons, hp,
          Bool.false_eq_true, if_false]
        exact ih (idx + 1) pr
      | false =>
        have hp : (!falsyType (some s)) = true := by simp [falsyType, hs]
        simp only [validateDocsAux, hd, hs, Bool.false_eq_true, if_false,
          List.filter_cons, hp, if_true, List.length_cons]
        rw [ih]

/-- A document with no usable `document_type` (the key is absent or its
value is `None`). -/
def noTypeDoc : Document :=
  { document_type := Option.none, extracted_fields := [("amount", Value.int 7)],
    vendor_name := Value.pynone, vendor_address := Value.obj, vendor_contact := Value.obj }

/-- C5 counterexample: a batch holding one document without
`document_type` produces no per-document result and a corpus summary
over zero documents, yet the top-level `total_documents` of the return
value is `len(documents) = 1` — the skipped document is counted there. -/
theorem C5_skip_counterexample :
    (validate_documents ext0 "t" [] [noTypeDoc]).total_documents = 1 ∧
    (validate_documents ext0 "t" [] [noTypeDoc]).document_results = [] ∧
    (validate_documents ext0 "t" [] [noTypeDoc]).overall_summary.total_documents = 0 := by
  exact ⟨rfl, rfl, rfl⟩

/-- C5 amended: a document with a falsy `document_type` contributes no
entry to `document_results` and is not counted by the corpus summary's
`total_documents`, but the top-level `total_documents` field is the raw
input length and does count it. -/
theorem C5_skipped_documents (ext : PyExt) (now : String) (rules : List Rule)
    (docs : List Document) :
    (validate_documents ext now rules docs).total_documents = docs.length ∧
    (validate_documents ext now rules docs).document_results.length =
      (docs.filter (fun d => !falsyType d.document_type)).length ∧
    (validate_documents ext now rules docs).overall_summary.total_documents =
      (docs.filter (fun d => !falsyType d.document_type)).length := by
  refine ⟨rfl, ?_, ?_⟩
  · exact validateDocsAux_length ext now rules docs 1 []
  · show (validateDocsAux ext now rules docs 1 []).length = _
    exact validateDocsAux_length ext now rules docs 1 []

/-- A `cross_document_consistency` validation object (no sub-type given:
the code defaults it to `exact_match`... the `type` here is the
dispatcher's tag; the sub-type default applies inside the validator). -/
def crossValidation : Validation :=
  { Validation.empty with type := some "cross_document_consistency" }

/-- A cross-document consistency rule over `total`. -/
def crossTotalRule : Rule :=
  { rule_id := "GEN-010", name := "Total consistency", severity := "high",
    field := some "total", validation := some crossValidation,
    applicable_documents := ["invoice"] }

/-- A cross-document consistency rule over `vendor_name`. -/
def crossVendorRule : Rule :=
  { crossTotalRule with rule_id := "GEN-011", field := some "vendor_name" }

/-- An invoice with the given vendor name and nothing else. -/
def invoiceDoc (vn : String) : Document :=
  { document_type := some "invoice", extracted_fields := [],
    vendor_name := Value.str vn, vendor_address := Value.obj,
    vendor_contact := Value.obj }

/-- C4 counterexample: a cross-document rule whose field is absent from
the batch's first document yields a `failed` outcome on that document,
not the `passed` of the claim's vacuous truth. -/
theorem C4_first_doc_counterexample :
    (validate_documents ext0 "t" [crossTotalRule] [invoiceDoc "Acme Corp"]).document_results.map
        (fun d => d.validation_results.map (fun o => (o.status, o.message))) =
      [[("failed", some "Field 'total' not found in current document")]] := by
  decide

/-- C4 amended: the batch's first document is validated against an empty
processed-documents list, and every cross-document consistency rule
whose field resolves to a non-`None` value in it passes (vacuous truth);
a rule whose field is absent fails instead. -/
theorem C4_first_document (ext : PyExt) (now : String) (rules : List Rule)
    (doc : Document) (rest : List Document) (dt : String)
    (hdt : doc.document_type = some dt) (hne : strIsEmpty dt = false) :
    (∃ tl, (validate_documents ext now rules (doc :: rest)).document_results =
      { document_index := 1, document_type := dt, document_data := documentData doc,
        validation_results := docOutcomes ext now rules dt (documentData doc) [],
        summary :=
          validation_summary now (docOutcomes ext now rules dt (documentData doc) []) }
        :: tl) ∧
    (∀ (r : Rule) (f : String), isCrossRule r = true → r.field = some f →
      (dataGet (documentData doc) f).getD Value.pynone ≠ Value.pynone →
      (evalOutcome ext now r (documentData doc) []).status = "passed") := by
  constructor
  · refine ⟨validateDocsAux ext now rules rest 2
      [{ document_type := dt, document_data := documentData doc, status := "processed" }], ?_⟩
    show validateDocsAux ext now rules (doc :: rest) 1 [] = _
    simp only [validateDocsAux, hdt, hne, Bool.false_eq_true, if_false, List.nil_append]
  · intro r f hc hf hval
    obtain ⟨val, hvv⟩ : ∃ val, r.validation = some val := by
      cases hvv : r.validation with
      | none =>
        exfalso
        rw [isCrossRule, hvv] at hc
        simp [Validation.empty] at hc
      | some val => exact ⟨val, rfl⟩
    have hcross : validate_cross r (documentData doc) [] = (true, "") := by
      unfold validate_cross
      simp only [hf, hvv]
      rw [if_neg hval]
      simp [matchingDocs]
    simp only [evalOutcome, hc, if_true, hcross, mkOutcome]

/-- C4 witness: the amended theorem on a concrete one-invoice batch with
a vendor-name consistency rule whose field is present. -/
theorem C4_first_document_witness :
    (evalOutcome ext0 "t" crossVendorRule (documentData (invoiceDoc "Acme Corp")) []).status =
      "passed" :=
  (C4_first_document ext0 "t" [crossVendorRule] (invoiceDoc "Acme Corp") [] "invoice"
    rfl (by decide)).2 crossVendorRule "vendor_name" (by decide) rfl (by decide)

/-- C6: the cross-document `exact_match` scenario of the claim evaluated
on the code.  The prior values are read with `doc.get(field)` from the
three-key `processed_docs` record instead of from its `document_data`,
so `matching_docs` stays empty and every document passes — including the
third invoice, whose vendor name "Acme Inc" the claim (and the
validator's own comparison code and messages) say must fail against
"Acme Corp". -/
theorem C6_cross_document_all_pass :
    (validate_documents ext0 "t" [crossVendorRule]
        [invoiceDoc "Acme Corp", invoiceDoc "ACME CORP", invoiceDoc "Acme Inc"]).document_results.map
        (fun d => d.validation_results.map (fun o => o.status)) =
      [["passed"], ["passed"], ["passed"]] := by
  decide

theorem validate_rule_rule_id (ext : PyExt) (now : String) (rule : Rule) (data : Data) :
    (validate_rule ext now rule data).rule_id = rule.rule_id := by
  unfold validate_rule
  split
  · simp only []
    split
    · rfl
    · split <;> first | rfl | (split <;> rfl)
  · rfl

theorem evalOutcome_rule_id (ext : PyExt) (now : String) (r : Rule) (data : Data)
    (pr : List ProcessedDoc) :
    (evalOutcome ext now r data pr).rule_id = r.rule_id := by
  unfold evalOutcome
  split
  · rfl
  · exact validate_rule_rule_id ext now r data

theorem docOutcomes_append (ext : PyExt) (now : String) (rs1 rs2 : List Rule) (dt : String)
    (data : Data) (pr : List ProcessedDoc) :
    docOutcomes ext now (rs1 ++ rs2) dt data pr =
      docOutcomes ext now rs1 dt data pr ++ docOutcomes ext now rs2 dt data pr := by
  unfold docOutcomes applicableRules
  rw [List.filter_append, List.map_append]

theorem docOutcomes_filter_self (ext : PyExt) (now : String) (rs : List Rule) (bad : Rule)
    (dt : String) (data : Data) (pr : List ProcessedDoc)
    (h : ∀ r ∈ rs, r.rule_id ≠ bad.rule_id) :
    (docOutcomes ext now rs dt data pr).filter (fun o => !(o.rule_id == bad.rule_id)) =
      docOutcomes ext now rs dt data pr := by
  apply List.filter_eq_self.mpr
  intro o ho
  unfold docOutcomes at ho
  rw [List.mem_map] at ho
  obtain ⟨r, hr, rfl⟩ := ho
  have hr' : r ∈ rs := List.mem_of_mem_filter hr
  simp [evalOutcome_rule_id, h r hr']

theorem docOutcomes_filter_bad (ext : PyExt) (now : String) (bad : Rule)
    (dt : String) (data : Data) (pr : List ProcessedDoc) :
    (docOutcomes ext now [bad] dt data pr).filter (fun o => !(o.rule_id == bad.rule_id)) = [] := by
  unfold docOutcomes applicableRules
  cases ha : bad.applicable_documents.contains dt with
  | false =>
    rw [List.filter_cons, if_neg (by rw [ha]; exact Bool.false_ne_true)]
    rfl
  | true =>
    rw [List.filter_cons, if_pos (by rw [ha])]
    simp [List.filter_cons, evalOutcome_rule_id]

theorem docOutcomes_filter_insert (ext : PyExt) (now : String) (rs1 rs2 : List Rule)
    (bad : Rule) (dt : String) (data : Data) (pr : List ProcessedDoc)
    (h : ∀ r ∈ rs1 ++ rs2, r.rule_id ≠ bad.rule_id) :
    (docOutcomes ext now (rs1 ++ bad :: rs2) dt data pr).filter
        (fun o => !(o.rule_id == bad.rule_id)) =
      docOutcomes ext now (rs1 ++ rs2) dt data pr := by
  have h1 : ∀ r ∈ rs1, r.rule_id ≠ bad.rule_id := fun r hr =>
    h r (List.mem_append_left rs2 hr)
  have h2 : ∀ r ∈ rs2, r.rule_id ≠ bad.rule_id := fun r hr =>
    h r (List.mem_append_right rs1 hr)
  have hsplit : rs1 ++ bad :: rs2 = rs1 ++ [bad] ++ rs2 := by simp
  rw [hsplit, docOutcomes_append, docOutcomes_append, List.filter_append, List.filter_append,
    docOutcomes_filter_self ext now rs1 bad dt data pr h1,
    docOutcomes_filter_self ext now rs2 bad dt data pr h2,
    docOutcomes_filter_bad, docOutcomes_append]
  simp

theorem validateDocsAux_isolation (ext : PyExt) (now : String) (rs1 rs2 : List Rule)
    (bad : Rule) (h : ∀ r ∈ rs1 ++ rs2, r.rule_id ≠ bad.rule_id) :
    ∀ (docs : List Document) (idx : Nat) (pr : List ProcessedDoc),
      (validateDocsAux ext now (rs1 ++ rs2) docs idx pr).map (fun d => d.validation_results) =
        (validateDocsAux ext now (rs1 ++ bad :: rs2) docs idx pr).map
          (fun d => d.validation_results.filter (fun o => !(o.rule_id == bad.rule_id))) := by
  intro docs
  induction docs with
  | nil => intro idx pr; rfl
  | cons d t ih =>
    intro idx pr
    cases hd : d.document_type with
    | none =>
      simp only [validateDocsAux, hd]
      exact ih (idx + 1) pr
    | some dt =>
      cases hs : strIsEmpty dt with
      | true =>
        simp only [validateDocsAux, hd, hs, if_true]
        exact ih (idx + 1) pr
      | false =>
        simp only [validateDocsAux, hd, hs, Bool.false_eq_true, if_false, List.map_cons]
        rw [docOutcomes_filter_insert ext now rs1 rs2 bad dt (documentData d) pr h]
        rw [ih (idx + 1) (pr ++ [ProcessedDoc.mk dt (documentData d) "processed"])]

theorem validate_rule_unknown_type (ext : PyExt) (now : String) (rule : Rule) (data : Data)
    (f : String) (v : Value) (val : Validation) (t : String)
    (hf : rule.field = some f) (hv : dataGet data f = some v)
    (hval : rule.validation = some val) (ht : val.type = some t)
    (h1 : t ≠ "numeric") (h2 : t ≠ "regex") (h3 : t ≠ "date_comparison") :
    validate_rule ext now rule data =
      mkOutcome rule "error" (some ("Unknown validation type: " ++ t)) now := by
  simp only [validate_rule, hf, hv, hval, ht]
  split <;> simp_all [optStr]

/-- A rule with the unrecognized validation type "fuzzy". -/
def fuzzyRule : Rule :=
  { numericRule with
    rule_id := "INV-009",
    validation := some { Validation.empty with type := some "fuzzy" } }

/-- C3 counterexample: a rule with an unrecognized validation type whose
field is absent from the document yields a `failed` outcome with the
"not found" message — the field check runs before the type dispatch, so
the claimed `error`/"Unknown validation type" outcome does not appear. -/
theorem C3_unknown_type_counterexample :
    (validate_rule ext0 "t" fuzzyRule []).status = "failed" ∧
    (validate_rule ext0 "t" fuzzyRule []).message =
      some "Field 'amount' not found in document" ∧
    (validate_rule ext0 "t" fuzzyRule []).status ≠ "error" := by
  refine ⟨by decide, by decide, by decide⟩

/-- C3 amended: when the rule's field is present in the document, an
unrecognized validation type yields exactly the `error` outcome with
message "Unknown validation type: <type>"; and inserting such a rule
anywhere in the store leaves every other rule's outcomes in every
document unchanged (the inserted rule's outcomes are exactly the ones
filtered out by its rule id). -/
theorem C3_unknown_type_amended :
    (∀ (ext : PyExt) (now : String) (rule : Rule) (data : Data) (f : String) (v : Value)
      (val : Validation) (t : String),
      rule.field = some f → dataGet data f = some v → rule.validation = some val →
      val.type = some t → t ≠ "numeric" → t ≠ "regex" → t ≠ "date_comparison" →
      validate_rule ext now rule data =
        mkOutcome rule "error" (some ("Unknown validation type: " ++ t)) now) ∧
    (∀ (ext : PyExt) (now : String) (docs : List Document) (rs1 rs2 : List Rule) (bad : Rule),
      (∀ r ∈ rs1 ++ rs2, r.rule_id ≠ bad.rule_id) →
      (validate_documents ext now (rs1 ++ rs2) docs).document_results.map
          (fun d => d.validation_results) =
        (validate_documents ext now (rs1 ++ bad :: rs2) docs).document_results.map
          (fun d => d.validation_results.filter (fun o => !(o.rule_id == bad.rule_id)))) := by
  constructor
  · exact validate_rule_unknown_type
  · intro ext now docs rs1 rs2 bad h
    exact validateDocsAux_isolation ext now rs1 rs2 bad h docs 1 []

/-- C3 witness: the amended theorem at the "fuzzy" rule with its field
present, and at a one-invoice batch with the "fuzzy" rule inserted into
an empty store. -/
theorem C3_unknown_type_witness :
    validate_rule ext0 "t" fuzzyRule [("amount", Value.int 5)] =
      mkOutcome fuzzyRule "error" (some ("Unknown validation type: " ++ "fuzzy")) "t" ∧
    (validate_documents ext0 "t" ([] ++ []) [invoiceDoc "A"]).document_results.map
        (fun d => d.validation_results) =
      (validate_documents ext0 "t" ([] ++ fuzzyRule :: []) [invoiceDoc "A"]).document_results.map
        (fun d => d.validation_results.filter (fun o => !(o.rule_id == fuzzyRule.rule_id))) :=
  ⟨C3_unknown_type_amended.1 ext0 "t" fuzzyRule [("amount", Value.int 5)] "amount"
      (Value.int 5) { Validation.empty with type := some "fuzzy" } "fuzzy"
      rfl rfl (by decide) (by decide) (by decide) (by decide) (by decide),
    C3_unknown_type_amended.2 ext0 "t" [invoiceDoc "A"] [] [] fuzzyRule (by simp)⟩

/-- An outcome with its timestamp replaced (how a different wall clock
changes a result). -/
def retimeOutcome (t : String) (o : Outcome) : Outcome := { o with timestamp := t }

/-- A document result with every timestamp replaced. -/
def retimeDocResult (t : String) (d : DocResult) : DocResult :=
  { d with validation_results := d.validation_results.map (retimeOutcome t),
           summary := { d.summary with timestamp := t } }

theorem validate_rule_retime (ext : PyExt) (now now' : String) (rule : Rule) (data : Data) :
    validate_rule ext now rule data = retimeOutcome now (validate_rule ext now' rule data) := by
  unfold validate_rule
  split
  · simp only []
    split
    · rfl
    · split <;> first | rfl | (split <;> rfl)
  · rfl

theorem evalOutcome_retime (ext : PyExt) (now now' : String) (r : Rule) (data : Data)
    (pr : List ProcessedDoc) :
    evalOutcome ext now r data pr = retimeOutcome now (evalOutcome ext now' r data pr) := by
  unfold evalOutcome
  split
  · rfl
  · exact validate_rule_retime ext now now' r data

theorem docOutcomes_retime (ext : PyExt) (now now' : String) (rules : List Rule) (dt : String)
    (data : Data) (pr : List ProcessedDoc) :
    docOutcomes ext now rules dt data pr =
      (docOutcomes ext now' rules dt data pr).map (retimeOutcome now) := by
  unfold docOutcomes
  rw [List.map_map]
  exact List.map_congr_left (fun r _ => evalOutcome_retime ext now now' r data pr)

theorem validation_summary_retime (now now' tt : String) (l : List Outcome) :
    validation_summary now (l.map (retimeOutcome tt)) =
      { validation_summary now' l with timestamp := now } := by
  have h1 : ((fun r : Outcome => r.status == "passed") ∘ retimeOutcome tt)
      = (fun r : Outcome => r.status == "passed") := funext fun a => rfl
  have h2 : ((fun r : Outcome => r.status == "failed") ∘ retimeOutcome tt)
      = (fun r : Outcome => r.status == "failed") := funext fun a => rfl
  have h3 : ((fun r : Outcome => r.status == "error") ∘ retimeOutcome tt)
      = (fun r : Outcome => r.status == "error") := funext fun a => rfl
  have h4 : ((fun r : Outcome => r.status == "failed" && r.severity == "high") ∘
        retimeOutcome tt)
      = (fun r : Outcome => r.status == "failed" && r.severity == "high") :=
    funext fun a => rfl
  unfold validation_summary
  simp [List.countP_map, List.filter_map, h1, h2, h3, h4]

theorem validateDocsAux_retime (ext : PyExt) (now now' : String) (rules : List Rule) :
    ∀ (docs : List Document) (idx : Nat) (pr : List ProcessedDoc),
      validateDocsAux ext now rules docs idx pr =
        (validateDocsAux ext now' rules docs idx pr).map (retimeDocResult now) := by
  intro docs
  induction docs with
  | nil => intro idx pr; rfl
  | cons d t ih =>
    intro idx pr
    cases hd : d.document_type with
    | none =>
      simp only [validateDocsAux, hd]
      exact ih (idx + 1) pr
    | some dt =>
      cases hs : strIsEmpty dt with
      | true =>
        simp only [validateDocsAux, hd, hs, if_true]
        exact ih (idx + 1) pr
      | false =>
        simp only [validateDocsAux, hd, hs, Bool.false_eq_true, if_false, List.map_cons]
        rw [ih (idx + 1) (pr ++ [ProcessedDoc.mk dt (documentData d) "processed"])]
        congr 1
        rw [docOutcomes_retime ext now now' rules dt (documentData d) pr]
        rw [validation_summary_retime now now' now
          (docOutcomes ext now' rules dt (documentData d) pr)]
        rfl

theorem overall_summary_retime (now now' tt : String) (l : List DocResult) :
    overall_summary now (l.map (retimeDocResult tt)) =
      { overall_summary now' l with timestamp := now } := by
  have hA : ((fun d : DocResult => d.validation_results.length) ∘ retimeDocResult tt)
      = (fun d : DocResult => d.validation_results.length) := by
    funext d
    simp [retimeDocResult]
  have hB : ((fun d : DocResult => d.summary.passed) ∘ retimeDocResult tt)
      = (fun d : DocResult => d.summary.passed) := funext fun d => rfl
  have hC : ((fun d : DocResult => d.summary.failed) ∘ retimeDocResult tt)
      = (fun d : DocResult => d.summary.failed) := funext fun d => rfl
  have hD : ((fun d : DocResult => d.summary.errors) ∘ retimeDocResult tt)
      = (fun d : DocResult => d.summary.errors) := funext fun d => rfl
  have hE : ((fun d : DocResult => d.summary.high_severity_failures) ∘ retimeDocResult tt)
      = (fun d : DocResult => d.summary.high_severity_failures) := funext fun d => rfl
  unfold overall_summary
  simp [List.map_map, hA, hB, hC, hD, hE]

theorem eraseDocResultTs_retime (t : String) (d : DocResult) :
    eraseDocResultTs (retimeDocResult t d) = eraseDocResultTs d := by
  unfold eraseDocResultTs retimeDocResult eraseDocSummaryTs
  simp [List.map_map, Function.comp, eraseOutcomeTs, retimeOutcome]

/-- C8 counterexample: the same empty batch validated at two different
wall-clock instants yields different results — every summary embeds
`datetime.now()`, so two runs of `validate_documents` are never
literally identical. -/
theorem C8_not_identical_counterexample :
    validate_documents ext0 "2024-01-01T00:00:00" [] [] ≠
      validate_documents ext0 "2024-01-01T00:00:01" [] [] := by
  decide

/-- C8 amended: apart from the wall-clock timestamp fields, batch
validation is a deterministic function of the documents and the rule
store — erasing timestamps, runs at different instants coincide. -/
theorem C8_deterministic_modulo_timestamps (ext : PyExt) (now now' : String)
    (rules : List Rule) (docs : List Document) :
    eraseBatchTs (validate_documents ext now rules docs) =
      eraseBatchTs (validate_documents ext now' rules docs) := by
  unfold validate_documents eraseBatchTs
  simp only []
  rw [validateDocsAux_retime ext now now' rules docs 1 []]
  congr 1
  · rw [List.map_map]
    exact List.map_congr_left (fun d _ => eraseDocResultTs_retime now d)
  · rw [overall_summary_retime now now' now (validateDocsAux ext now' rules docs 1 [])]
